import Mathlib

/-!
Verification of the analysis orchestration and persistence contract of the
street-view image processor (`main.py`, `ollama_client.py`, `database.py`).

The Python code is shallowly embedded: HTTP transport, the filesystem and the
remote model are oracles passed in as parameters; the relational session is an
explicit `DB` state threaded through the orchestrator, with a commit log so
that transaction-boundary properties can be stated.
-/

set_option autoImplicit false

namespace ImageProcessor

/-! ### Python-level string helpers -/

/-- Does `pre` occur as a prefix of `l`? (chars compared with `==`). -/
def charsHavePrefix : List Char → List Char → Bool
  | [], _ => true
  | _ :: _, [] => false
  | a :: as, b :: bs => a == b && charsHavePrefix as bs

/-- Does `needle` occur as a contiguous run inside `hay`? -/
def charsContain (needle : List Char) : List Char → Bool
  | [] => charsHavePrefix needle []
  | c :: cs => charsHavePrefix needle (c :: cs) || charsContain needle cs

/-- Python's `sub in s` substring test. -/
def strContains (s sub : String) : Bool :=
  charsContain sub.data s.data

/-- Python's `a or b` where `a` is an `Optional[str]`: `None` and `""` are
falsy, so they yield `b`. Models `request.model or OLLAMA_MODEL` and
`model or self.model`. -/
def pyOrStr (a : Option String) (b : String) : String :=
  match a with
  | some s => if s == "" then b else s
  | none => b

/-- Python truthiness of an `Optional[str]` value (`None` and `""` falsy).
Models the test `request.custom_prompt` in `analyze_image`'s dispatch. -/
def pyTruthy : Option String → Bool
  | some s => !(s == "")
  | none => false

/-! ### `ollama_client.py`: the Model Client

`OllamaClient.analyze_image` builds one POST to `{base_url}/api/generate` with
payload `{model, prompt, images, stream: False}` and `timeout=120`, calls
`raise_for_status`, and converts any `requests.exceptions.RequestException`
(timeout, connection failure, or the `HTTPError` raised by `raise_for_status`
on a 4xx/5xx status) into a failure dict instead of re-raising. The HTTP layer
is an oracle `transport`; wall-clock time is abstracted by the `elapsed_ms`
parameter (the value of `int((time.time() - start_time) * 1000)`). -/

structure OllamaConfig where
  base_url : String
  model : String
  deriving Repr, DecidableEq

/-- The request `requests.post` is given: URL, JSON payload fields, and the
`timeout=120` keyword. -/
structure GenRequest where
  url : String
  model : String
  prompt : String
  images : List String
  stream : Bool
  timeout : Nat
  deriving Repr, DecidableEq

/-- The parsed JSON body of a generate response; `result.get('response', '')`
reads the optional `response` field. -/
structure GenJson where
  response : Option String
  deriving Repr, DecidableEq

/-- Outcome of one `requests.post` call: either an HTTP response (any status)
or a raised `requests.exceptions.RequestException` (timeout, connection
error, ...) carrying `str(e)`. -/
inductive TransportOutcome where
  | response (status : Nat) (reason : String) (body : GenJson)
  | exn (message : String)
  deriving Repr, DecidableEq

/-- The dict returned by `OllamaClient.analyze_image`: on success the keys
`success, model, response, processing_time_ms` (plus `raw_result`, not
modelled); on failure `success, model, error, processing_time_ms`. Absent
keys are `none`. -/
structure ClientReturn where
  success : Bool
  model : String
  response : Option String
  error : Option String
  processing_time_ms : Nat
  deriving Repr, DecidableEq

/-- The message of the `HTTPError` that `raise_for_status` raises on a 4xx or
5xx status (`requests`' format). Statuses below 400 raise nothing. -/
def statusErrorMessage (status : Nat) (reason url : String) : String :=
  if 400 ≤ status ∧ status < 500 then
    toString status ++ " Client Error: " ++ reason ++ " for url: " ++ url
  else
    toString status ++ " Server Error: " ++ reason ++ " for url: " ++ url

/-- `OllamaClient.analyze_image(image_path, prompt, model)`. The image bytes
are already base64-encoded as `image_b64` (`encode_image`). Returns the
result dict together with the list of HTTP requests actually sent. -/
def OllamaClient_analyze_image (c : OllamaConfig)
    (transport : GenRequest → TransportOutcome) (elapsed_ms : Nat)
    (image_b64 : String) (prompt : String) (model : Option String) :
    ClientReturn × List GenRequest :=
  let model_name := pyOrStr model c.model
  let url := c.base_url ++ "/api/generate"
  let req : GenRequest :=
    { url := url, model := model_name, prompt := prompt,
      images := [image_b64], stream := false, timeout := 120 }
  match transport req with
  | .response status reason body =>
      if 400 ≤ status then
        ({ success := false, model := model_name, response := none,
           error := some (statusErrorMessage status reason url),
           processing_time_ms := elapsed_ms }, [req])
      else
        ({ success := true, model := model_name,
           response := some (body.response.getD ""), error := none,
           processing_time_ms := elapsed_ms }, [req])
  | .exn message =>
      ({ success := false, model := model_name, response := none,
         error := some message, processing_time_ms := elapsed_ms }, [req])

/-- `OllamaClient.list_models`: on a 200 response returns the model names,
otherwise (non-200 or exception) the empty list. -/
def OllamaClient_list_models (outcome : Option (Nat × List String)) : List String :=
  match outcome with
  | some (status, names) => if status == 200 then names else []
  | none => []

/-! ### `database.py` / `main.py`: persistence state

The SQLAlchemy session (`sessionmaker(autocommit=False, autoflush=False)`) is
modelled as committed rows plus pending (added, not yet committed) rows;
`db.commit()` moves pending rows into the committed tables and appends one
entry to a commit log, so transaction boundaries are observable. Primary keys
are allocated from per-table counters. Only the columns the orchestration
reads or writes are modelled; `AnalysisResult.result_data` is always the dict
`{'response': text}`, kept here as the text itself. -/

/-- Configuration of `main.py`: `INPUT_DIR` and `OLLAMA_MODEL`. -/
structure Config where
  input_dir : String
  ollama_model : String
  deriving Repr, DecidableEq

/-- Parsed sidecar metadata JSON (`image_path.with_suffix('.json')`). Fields
absent from the JSON are `none`; `capturedAt` is kept as an already-parsed
timestamp, and `coordinates` as the verbatim JSON value, since the
orchestration copies both into columns without inspecting them. -/
structure Metadata where
  address : Option String
  coordinates : Option String
  url : Option String
  capturedAt : Option Int
  screenshot_width : Option Nat
  screenshot_height : Option Nat
  deriving Repr, DecidableEq

/-- The filesystem under `INPUT_DIR`, keyed by full path: existence, `stat``
file size, and the parsed sidecar JSON when `with_suffix('.json')` exists. -/
structure FS where
  fileExists : String → Bool
  fileSize : String → Nat
  sidecar : String → Option Metadata

/-- A row of the `images` table (columns the code reads or writes). -/
structure ImageRow where
  id : Nat
  filename : String
  filepath : String
  address : Option String
  coordinates : Option String
  google_maps_url : Option String
  captured_at : Option Int
  width : Option Nat
  height : Option Nat
  file_size_bytes : Nat
  deriving Repr, DecidableEq

/-- A row of the `analysis_results` table; `result_response` is the `response`
value inside the `result_data` JSON. -/
structure AnalysisRow where
  id : Nat
  image_id : Nat
  model_name : String
  analysis_type : String
  result_response : String
  processing_time_ms : Nat
  deriving Repr, DecidableEq

/-- One `db.commit()`: the rows that became durable at that point. -/
structure DbCommit where
  images : List ImageRow
  analyses : List AnalysisRow
  deriving Repr, DecidableEq

/-- The database session state. -/
structure DB where
  images : List ImageRow
  analyses : List AnalysisRow
  pendingImages : List ImageRow
  pendingAnalyses : List AnalysisRow
  nextImageId : Nat
  nextAnalysisId : Nat
  commits : List DbCommit
  deriving Repr, DecidableEq

/-- `db.commit()`: flush pending rows into the tables and record the commit. -/
def DB.commit (db : DB) : DB :=
  { db with
    images := db.images ++ db.pendingImages,
    analyses := db.analyses ++ db.pendingAnalyses,
    pendingImages := [],
    pendingAnalyses := [],
    commits := db.commits ++ [⟨db.pendingImages, db.pendingAnalyses⟩] }

/-- `db.query(Image).filter(Image.filename == filename).first()`. -/
def DB.findImage (db : DB) (filename : String) : Option ImageRow :=
  db.images.find? (fun i => i.filename == filename)

/-! ### `main.py`: request/response shapes -/

/-- `AnalyzeRequest` (pydantic): `analyses` defaults to `['description']`,
`model` and `custom_prompt` default to `None`. -/
structure AnalyzeRequest where
  filename : String
  analyses : List String := ["description"]
  model : Option String := none
  custom_prompt : Option String := none
  deriving Repr, DecidableEq

/-- `BatchAnalyzeRequest` (pydantic). -/
structure BatchAnalyzeRequest where
  filenames : List String
  analyses : List String := ["description"]
  model : Option String := none
  deriving Repr, DecidableEq

/-- A value of the `results` map: either the model's text response or the
per-kind error object `{'error': msg}`. -/
inductive ResVal where
  | text (s : String)
  | errorObj (error : String)
  deriving Repr, DecidableEq

/-- `AnalysisResponse` (pydantic); `results` is a Python dict, modelled as an
association list in insertion order. -/
structure AnalysisResponse where
  image_id : Nat
  filename : String
  model : String
  results : List (String × ResVal)
  processing_time_ms : Nat
  deriving Repr, DecidableEq

/-- Exceptions that can escape `analyze_image`: the explicit
`HTTPException(404, ...)` raise, and the `TypeError` from calling the
function without its required positional argument `background_tasks`. -/
inductive PyException where
  | httpException (status : Nat) (detail : String)
  | typeError (message : String)
  deriving Repr, DecidableEq

/-- `str(e)` for the exceptions above (Starlette's `HTTPException.__str__` is
`f"{status_code}: {detail}"`). -/
def pyExceptionStr : PyException → String
  | .httpException status detail => toString status ++ ": " ++ detail
  | .typeError message => message

/-- FastAPI's `BackgroundTasks` object (opaque; never used by the body). -/
structure BackgroundTasks where
  mk' ::
  deriving Repr, DecidableEq

/-- `dict.__setitem__` on an association list: a fresh key is appended, an
existing key keeps its position and gets the new value. -/
def dictInsert (m : List (String × ResVal)) (k : String) (v : ResVal) :
    List (String × ResVal) :=
  match m with
  | [] => [(k, v)]
  | (k', v') :: rest =>
      if k' == k then (k, v) :: rest else (k', v') :: dictInsert rest k v

/-- Does the dict have key `k`? -/
def hasKey (m : List (String × ResVal)) (k : String) : Bool :=
  m.any (fun p => p.1 == k)

/-! ### `main.py`: the `/analyze` orchestration

The remote model is an oracle `RawOutcome` stream indexed by invocation
count: invocation `n` (across the life of the oracle) yields either the text
response and measured duration, or the error string and duration, exactly the
two shapes `OllamaClient.analyze_image` can return (`OllamaClient_analyze_image`
above proves it returns no other shape). The trace of client-method calls is
recorded so that "the Model Client is not invoked" is statable. -/

/-- Result of one `OllamaClient.analyze_image` call, abstracted from the
transport: success carries `response` and `processing_time_ms`, failure
carries `error` and `processing_time_ms`. -/
inductive RawOutcome where
  | ok (response : String) (time_ms : Nat)
  | err (error : String) (time_ms : Nat)
  deriving Repr, DecidableEq

def RawOutcome.isOk : RawOutcome → Bool
  | .ok _ _ => true
  | .err _ _ => false

/-- One call to a client method, as the orchestrator performs it. -/
inductive ClientCall where
  | describe (model : String)
  | detectObjects (model : String)
  | extractText (model : String)
  | customCall (prompt : String) (model : String)
  deriving Repr, DecidableEq

/-- The dispatch's `result` dict, by the three shapes it can take: a client
success dict, a client failure dict, or the synthetic
`{'success': False, 'error': 'Unknown analysis type: ...'}` dict. -/
inductive DispatchResult where
  | clientOk (model : String) (response : String) (time_ms : Nat)
  | clientErr (model : String) (error : String) (time_ms : Nat)
  | invalid (error : String)
  deriving Repr, DecidableEq

/-- The `model` key of the client's return dict: `model or self.model`, where
`self.model` is `OLLAMA_MODEL` (the client is constructed with it). -/
def clientModelName (passed selfModel : String) : String :=
  pyOrStr (some passed) selfModel

/-- Loop state of the `for analysis_type in request.analyses` loop, plus the
oracle cursor `k` and the trace of client calls. -/
structure LoopState where
  results : List (String × ResVal)
  total : Nat
  db : DB
  k : Nat
  calls : List ClientCall
  deriving Repr

/-- Perform one client-method call: consume the oracle at the cursor and
record the call. -/
def runClientCall (cfg : Config) (oracle : Nat → RawOutcome)
    (model_name : String) (call : ClientCall) (st : LoopState) :
    DispatchResult × LoopState :=
  let m := clientModelName model_name cfg.ollama_model
  let res :=
    match oracle st.k with
    | .ok r t => DispatchResult.clientOk m r t
    | .err e t => DispatchResult.clientErr m e t
  (res, { st with k := st.k + 1, calls := st.calls ++ [call] })

/-- The `if analysis_type == ... / elif ... / else` chain computing `result`
(the client calls advance the loop state's cursor and trace). -/
def dispatchAnalysis (cfg : Config) (oracle : Nat → RawOutcome)
    (request : AnalyzeRequest) (model_name : String) (st : LoopState)
    (analysis_type : String) : DispatchResult × LoopState :=
  if analysis_type == "description" then
    runClientCall cfg oracle model_name (.describe model_name) st
  else if analysis_type == "object_detection" then
    runClientCall cfg oracle model_name (.detectObjects model_name) st
  else if analysis_type == "ocr" then
    runClientCall cfg oracle model_name (.extractText model_name) st
  else if analysis_type == "custom" && pyTruthy request.custom_prompt then
    runClientCall cfg oracle model_name
      (.customCall (request.custom_prompt.getD "") model_name) st
  else
    (DispatchResult.invalid ("Unknown analysis type: " ++ analysis_type), st)

/-- The `if result.get('success')` half of the loop body: on success store
the text under the kind's key, `db.add` the `AnalysisResult` row and
accumulate the duration into the total; otherwise store the error object
(`result.get('error', 'Analysis failed')`; the `'error'` key is present in
both failure shapes, so the default is never used) under the kind's key. -/
def recordResult (image_id : Nat) (analysis_type : String)
    (result : DispatchResult) (st : LoopState) : LoopState :=
  match result with
  | .clientOk m r t =>
      { st with
        results := dictInsert st.results analysis_type (.text r),
        db := { st.db with
                pendingAnalyses := st.db.pendingAnalyses ++
                  [{ id := st.db.nextAnalysisId, image_id := image_id,
                     model_name := m, analysis_type := analysis_type,
                     result_response := r, processing_time_ms := t }],
                nextAnalysisId := st.db.nextAnalysisId + 1 },
        total := st.total + t }
  | .clientErr _ e _ =>
      { st with results := dictInsert st.results analysis_type (.errorObj e) }
  | .invalid e =>
      { st with results := dictInsert st.results analysis_type (.errorObj e) }

/-- One iteration of the `for analysis_type in request.analyses` loop. -/
def analysisStep (cfg : Config) (oracle : Nat → RawOutcome)
    (request : AnalyzeRequest) (model_name : String) (image_id : Nat)
    (st : LoopState) (analysis_type : String) : LoopState :=
  let (result, st') :=
    dispatchAnalysis cfg oracle request model_name st analysis_type
  recordResult image_id analysis_type result st'

/-- Is `analysis_type` one the dispatch sends to the Model Client: one of the
three fixed kinds, or `custom` accompanied by a truthy `custom_prompt`? -/
def validKind (request : AnalyzeRequest) (t : String) : Bool :=
  t == "description" || t == "object_detection" || t == "ocr" ||
    (t == "custom" && pyTruthy request.custom_prompt)

/-- The `Image` row built for a first-time filename: sidecar metadata fields
when present (`metadata.get(...)` on the empty dict gives `None`), `stat`
file size, and the fresh primary key. -/
def newImageRow (fs : FS) (filename image_path : String) (id : Nat) : ImageRow :=
  let metadata := fs.sidecar image_path
  { id := id,
    filename := filename,
    filepath := image_path,
    address := metadata.bind (·.address),
    coordinates := metadata.bind (·.coordinates),
    google_maps_url := metadata.bind (·.url),
    captured_at := metadata.bind (·.capturedAt),
    width := metadata.bind (·.screenshot_width),
    height := metadata.bind (·.screenshot_height),
    file_size_bytes := fs.fileSize image_path }

/-- The find-or-create step of `analyze_image`: look up by filename; when
absent, read the sidecar metadata, build the row, `db.add` it and commit at
once (the source commits the new `Image` row on its own, before any
analysis). Returns the `db_image` in scope after the step. -/
def findOrCreateImage (fs : FS) (filename image_path : String) (db : DB) :
    ImageRow × DB :=
  match db.findImage filename with
  | some img => (img, db)
  | none =>
      let row := newImageRow fs filename image_path db.nextImageId
      let db1 := { db with pendingImages := db.pendingImages ++ [row],
                           nextImageId := db.nextImageId + 1 }
      (row, db1.commit)

/-- Everything observable about one invocation of the `/analyze` handler:
the returned value or escaped exception, the session state afterwards, the
client calls made, and the advanced oracle cursor. -/
structure AnalyzeOutcome where
  result : Except PyException AnalysisResponse
  db : DB
  calls : List ClientCall
  k : Nat
  deriving Repr

/-- The `/analyze` handler `analyze_image(request, background_tasks, db)`.

`background_tasks` is a required positional parameter with no default, so the
embedding takes it as `Option BackgroundTasks`: `some` when the caller
supplies it (as FastAPI does for the endpoint), `none` when a call site omits
it, in which case Python raises `TypeError` at argument binding, before the
body runs — that is how `analyze_batch` calls it. The body: 404 before any
session access when the file is missing; find-or-create the image row
(committing a created row immediately); run the analysis loop; one final
`db.commit()`; return the aggregate response. -/
def analyze_image (cfg : Config) (fs : FS) (oracle : Nat → RawOutcome)
    (request : AnalyzeRequest) (background_tasks : Option BackgroundTasks)
    (db : DB) (k : Nat) : AnalyzeOutcome :=
  match background_tasks with
  | none =>
      { result := .error (.typeError
          "analyze_image() missing 1 required positional argument: 'background_tasks'"),
        db := db, calls := [], k := k }
  | some _ =>
      let image_path := cfg.input_dir ++ "/" ++ request.filename
      if fs.fileExists image_path then
        let (db_image, db1) := findOrCreateImage fs request.filename image_path db
        let model_name := pyOrStr request.model cfg.ollama_model
        let st0 : LoopState :=
          { results := [], total := 0, db := db1, k := k, calls := [] }
        let stF :=
          request.analyses.foldl
            (analysisStep cfg oracle request model_name db_image.id) st0
        { result := .ok
            { image_id := db_image.id, filename := request.filename,
              model := model_name, results := stF.results,
              processing_time_ms := stF.total },
          db := stF.db.commit, calls := stF.calls, k := stF.k }
      else
        { result := .error (.httpException 404
            ("Image not found: " ++ request.filename)),
          db := db, calls := [], k := k }

/-! ### `main.py`: the `/analyze-batch` orchestration -/

/-- One element of the batch response's `results` list. -/
structure BatchEntry where
  filename : String
  success : Bool
  result : Option AnalysisResponse
  error : Option String
  deriving Repr, DecidableEq

/-- The `/analyze-batch` response body. -/
structure BatchResponse where
  total : Nat
  successful : Nat
  failed : Nat
  results : List BatchEntry
  deriving Repr, DecidableEq

/-- Observables of one `/analyze-batch` invocation. -/
structure BatchOutcome where
  response : BatchResponse
  db : DB
  calls : List ClientCall
  k : Nat
  deriving Repr

/-- The `/analyze-batch` handler: for each filename it builds an
`AnalyzeRequest` (with the batch's `analyses` and `model`, `custom_prompt`
left at its default `None`) and calls
`analyze_image(analyze_req, db=db)` — omitting the required positional
argument `background_tasks`, hence passing `none` for it here — catching any
exception into a per-filename failure entry with `str(e)`. -/
def analyze_batch (cfg : Config) (fs : FS) (oracle : Nat → RawOutcome)
    (request : BatchAnalyzeRequest) (db : DB) (k : Nat) : BatchOutcome :=
  let step := fun (acc : List BatchEntry × DB × List ClientCall × Nat)
      (filename : String) =>
    let (entries, db, calls, k) := acc
    let analyze_req : AnalyzeRequest :=
      { filename := filename, analyses := request.analyses,
        model := request.model }
    let out := analyze_image cfg fs oracle analyze_req none db k
    match out.result with
    | .ok resp =>
        (entries ++ [{ filename := filename, success := true,
                       result := some resp, error := none }],
         out.db, calls ++ out.calls, out.k)
    | .error e =>
        (entries ++ [{ filename := filename, success := false,
                       result := none, error := some (pyExceptionStr e) }],
         out.db, calls ++ out.calls, out.k)
  let (entries, db', calls, k') := request.filenames.foldl step ([], db, [], k)
  { response :=
      { total := request.filenames.length,
        successful := (entries.filter (fun r => r.success)).length,
        failed := (entries.filter (fun r => !r.success)).length,
        results := entries },
    db := db', calls := calls, k := k' }

/-! ### `main.py`: the `/models` endpoint -/

/-- The `/models` response body. -/
structure ModelsResponse where
  all_models : List String
  vision_models : List String
  default_model : String
  deriving Repr, DecidableEq

/-- The `/models` handler: `models = ollama.list_models()` (passed in as the
already-fetched list), then the `llava`/`vision` case-insensitive substring
filter, and `OLLAMA_MODEL` as `default_model`. -/
def list_models (cfg : Config) (models : List String) : ModelsResponse :=
  { all_models := models,
    vision_models := models.filter
      (fun m => strContains m.toLower "llava" || strContains m.toLower "vision"),
    default_model := cfg.ollama_model }

/-! ### Concrete test fixtures

Used to instantiate the universally quantified theorems at checkable inputs. -/

/-- The default deployment configuration of `main.py`. -/
def testCfg : Config := { input_dir := "/app/input", ollama_model := "llava:13b" }

/-- A filesystem on which only `a.jpg` exists under the input root, with no
sidecar metadata. -/
def testFS : FS :=
  { fileExists := fun p => p == "/app/input/a.jpg",
    fileSize := fun _ => 1000,
    sidecar := fun _ => none }

/-- A model oracle that always succeeds, with distinct texts and durations. -/
def testOracle : Nat → RawOutcome := fun n => .ok ("resp" ++ toString n) (n + 5)

/-- A model oracle that always fails (e.g. the endpoint is down). -/
def failOracle : Nat → RawOutcome := fun n => .err ("boom" ++ toString n) (n + 3)

/-- A fresh session over an empty database. -/
def emptyDB : DB :=
  { images := [], analyses := [], pendingImages := [], pendingAnalyses := [],
    nextImageId := 1, nextAnalysisId := 1, commits := [] }

/-! ## Helper lemmas -/

theorem hasKey_nil (k : String) : hasKey [] k = false := rfl

theorem hasKey_cons (a : String) (b : ResVal) (rest : List (String × ResVal))
    (k : String) : hasKey ((a, b) :: rest) k = ((a == k) || hasKey rest k) := rfl

theorem dictInsert_nil (k : String) (v : ResVal) :
    dictInsert [] k v = [(k, v)] := rfl

theorem dictInsert_cons (a : String) (b : ResVal)
    (rest : List (String × ResVal)) (k : String) (v : ResVal) :
    dictInsert ((a, b) :: rest) k v =
      if a == k then (k, v) :: rest else (a, b) :: dictInsert rest k v := rfl

theorem hasKey_dictInsert_self (m : List (String × ResVal)) (k : String)
    (v : ResVal) : hasKey (dictInsert m k v) k = true := by
  induction m with
  | nil => rw [dictInsert_nil, hasKey_cons]; simp
  | cons p rest ih =>
      obtain ⟨a, b⟩ := p
      rw [dictInsert_cons]
      by_cases h : a == k
      · simp only [h, if_true, hasKey_cons]
        simp
      · simp only [h, if_false, Bool.false_eq_true, hasKey_cons, ih]
        simp

theorem hasKey_dictInsert_of_hasKey (m : List (String × ResVal))
    (k' : String) (v : ResVal) (k : String) (h : hasKey m k = true) :
    hasKey (dictInsert m k' v) k = true := by
  induction m with
  | nil => rw [hasKey_nil] at h; cases h
  | cons p rest ih =>
      obtain ⟨a, b⟩ := p
      rw [hasKey_cons] at h
      rw [dictInsert_cons]
      simp only [Bool.or_eq_true] at h
      by_cases hk : a == k'
      · simp only [hk, if_true, hasKey_cons]
        rcases h with h1 | h1
        · have e1 : a = k := by simpa using h1
          have e2 : a = k' := by simpa using hk
          have e3 : (k' == k) = true := by rw [← e1, ← e2]; simp
          simp [e3]
        · simp [h1]
      · simp only [hk, if_false, Bool.false_eq_true, hasKey_cons]
        rcases h with h1 | h1
        · simp [h1]
        · simp [ih h1]

theorem runClientCall_snd (cfg : Config) (oracle : Nat → RawOutcome)
    (model_name : String) (call : ClientCall) (st : LoopState) :
    (runClientCall cfg oracle model_name call st).2 =
      { st with k := st.k + 1, calls := st.calls ++ [call] } := by
  unfold runClientCall
  rcases oracle st.k <;> rfl

theorem dispatchAnalysis_snd (cfg : Config) (oracle : Nat → RawOutcome)
    (request : AnalyzeRequest) (model_name : String) (st : LoopState)
    (t : String) :
    (dispatchAnalysis cfg oracle request model_name st t).2.results = st.results ∧
    (dispatchAnalysis cfg oracle request model_name st t).2.db = st.db ∧
    (dispatchAnalysis cfg oracle request model_name st t).2.total = st.total := by
  unfold dispatchAnalysis
  split
  · rw [runClientCall_snd]; exact ⟨rfl, rfl, rfl⟩
  · split
    · rw [runClientCall_snd]; exact ⟨rfl, rfl, rfl⟩
    · split
      · rw [runClientCall_snd]; exact ⟨rfl, rfl, rfl⟩
      · split
        · rw [runClientCall_snd]; exact ⟨rfl, rfl, rfl⟩
        · exact ⟨rfl, rfl, rfl⟩

theorem recordResult_results (image_id : Nat) (t : String)
    (result : DispatchResult) (st : LoopState) :
    ∃ v, (recordResult image_id t result st).results = dictInsert st.results t v := by
  rcases result with ⟨m, r, tm⟩ | ⟨m, e, tm⟩ | ⟨e⟩
  · exact ⟨.text r, rfl⟩
  · exact ⟨.errorObj e, rfl⟩
  · exact ⟨.errorObj e, rfl⟩

theorem recordResult_db (image_id : Nat) (t : String)
    (result : DispatchResult) (st : LoopState) :
    (recordResult image_id t result st).db.images = st.db.images ∧
    (recordResult image_id t result st).db.pendingImages = st.db.pendingImages ∧
    (recordResult image_id t result st).db.analyses = st.db.analyses ∧
    (recordResult image_id t result st).db.commits = st.db.commits ∧
    (recordResult image_id t result st).db.nextImageId = st.db.nextImageId ∧
    ((∃ row : AnalysisRow,
        (recordResult image_id t result st).db.pendingAnalyses =
          st.db.pendingAnalyses ++ [row] ∧
        row.image_id = image_id ∧ row.analysis_type = t ∧
        row.id = st.db.nextAnalysisId ∧
        (recordResult image_id t result st).db.nextAnalysisId =
          st.db.nextAnalysisId + 1 ∧
        (recordResult image_id t result st).total =
          st.total + row.processing_time_ms) ∨
      ((recordResult image_id t result st).db.pendingAnalyses =
          st.db.pendingAnalyses ∧
       (recordResult image_id t result st).db.nextAnalysisId =
          st.db.nextAnalysisId ∧
       (recordResult image_id t result st).total = st.total)) := by
  rcases result with ⟨m, r, tm⟩ | ⟨m, e, tm⟩ | ⟨e⟩
  · exact ⟨rfl, rfl, rfl, rfl, rfl, .inl ⟨_, rfl, rfl, rfl, rfl, rfl, rfl⟩⟩
  · exact ⟨rfl, rfl, rfl, rfl, rfl, .inr ⟨rfl, rfl, rfl⟩⟩
  · exact ⟨rfl, rfl, rfl, rfl, rfl, .inr ⟨rfl, rfl, rfl⟩⟩

theorem analysisStep_eq (cfg : Config) (oracle : Nat → RawOutcome)
    (request : AnalyzeRequest) (model_name : String) (image_id : Nat)
    (st : LoopState) (t : String) :
    analysisStep cfg oracle request model_name image_id st t =
      recordResult image_id t
        (dispatchAnalysis cfg oracle request model_name st t).1
        (dispatchAnalysis cfg oracle request model_name st t).2 := by
  unfold analysisStep
  rcases dispatchAnalysis cfg oracle request model_name st t with ⟨res, st'⟩
  rfl

/-- The analysis loop touches the session only by appending pending
`AnalysisResult` rows; the images table, pending images, the commit log and
the image-id counter are untouched, and the running total is exactly the sum
of the durations of the rows it appended. -/
theorem foldl_analysisStep_db (cfg : Config) (oracle : Nat → RawOutcome)
    (request : AnalyzeRequest) (model_name : String) (image_id : Nat) :
    ∀ (l : List String) (st : LoopState),
      (l.foldl (analysisStep cfg oracle request model_name image_id) st).db.images
          = st.db.images ∧
      (l.foldl (analysisStep cfg oracle request model_name image_id) st).db.pendingImages
          = st.db.pendingImages ∧
      (l.foldl (analysisStep cfg oracle request model_name image_id) st).db.analyses
          = st.db.analyses ∧
      (l.foldl (analysisStep cfg oracle request model_name image_id) st).db.commits
          = st.db.commits ∧
      (l.foldl (analysisStep cfg oracle request model_name image_id) st).db.nextImageId
          = st.db.nextImageId ∧
      ∃ rows : List AnalysisRow,
        (l.foldl (analysisStep cfg oracle request model_name image_id) st).db.pendingAnalyses
            = st.db.pendingAnalyses ++ rows ∧
        (l.foldl (analysisStep cfg oracle request model_name image_id) st).total
            = st.total + (rows.map (fun r => r.processing_time_ms)).sum ∧
        ∀ r ∈ rows, r.image_id = image_id := by
  intro l
  induction l with
  | nil =>
      intro st
      exact ⟨rfl, rfl, rfl, rfl, rfl, [], by simp, by simp, by simp⟩
  | cons t rest ih =>
      intro st
      rw [List.foldl_cons]
      obtain ⟨h1, h2, h3, h4, h5, rows1, hp, ht, him⟩ :=
        ih (analysisStep cfg oracle request model_name image_id st t)
      have hdisp := dispatchAnalysis_snd cfg oracle request model_name st t
      have hstep := recordResult_db image_id t
        (dispatchAnalysis cfg oracle request model_name st t).1
        (dispatchAnalysis cfg oracle request model_name st t).2
      rw [← analysisStep_eq] at hstep
      rw [hdisp.2.1] at hstep
      obtain ⟨hs1, hs2, hs3, hs4, hs5, hsrest⟩ := hstep
      refine ⟨h1.trans hs1, h2.trans hs2, h3.trans hs3, h4.trans hs4,
        h5.trans hs5, ?_⟩
      rcases hsrest with ⟨row, hprow, hrim, _, _, _, htot⟩ | ⟨hpe, _, hte⟩
      · refine ⟨row :: rows1, ?_, ?_, ?_⟩
        · rw [hp, hprow, List.append_assoc]
          rfl
        · rw [ht, htot, hdisp.2.2]
          simp [Nat.add_assoc]
        · intro r hr
          rcases List.mem_cons.mp hr with h | h
          · subst h; exact hrim
          · exact him r h
      · refine ⟨rows1, ?_, ?_, him⟩
        · rw [hp, hpe]
        · rw [ht, hte, hdisp.2.2]

/-- Every analysis kind of the list ends up as a key of the results map, and
keys already present are preserved: no per-kind failure erases a sibling
kind's slot. -/
theorem foldl_analysisStep_hasKey (cfg : Config) (oracle : Nat → RawOutcome)
    (request : AnalyzeRequest) (model_name : String) (image_id : Nat) :
    ∀ (l : List String) (st : LoopState),
      (∀ t', hasKey st.results t' = true →
        hasKey (l.foldl (analysisStep cfg oracle request model_name image_id) st).results t'
          = true) ∧
      (∀ t ∈ l,
        hasKey (l.foldl (analysisStep cfg oracle request model_name image_id) st).results t
          = true) := by
  intro l
  induction l with
  | nil => intro st; exact ⟨fun _ h => h, by simp⟩
  | cons t rest ih =>
      intro st
      rw [List.foldl_cons]
      have hkeys : ∀ t', hasKey st.results t' = true →
          hasKey (analysisStep cfg oracle request model_name image_id st t).results t'
            = true := by
        intro t' h
        rw [analysisStep_eq]
        obtain ⟨v, hv⟩ := recordResult_results image_id t
          (dispatchAnalysis cfg oracle request model_name st t).1
          (dispatchAnalysis cfg oracle request model_name st t).2
        rw [hv, (dispatchAnalysis_snd cfg oracle request model_name st t).1]
        exact hasKey_dictInsert_of_hasKey _ _ _ _ h
      have hself :
          hasKey (analysisStep cfg oracle request model_name image_id st t).results t
            = true := by
        rw [analysisStep_eq]
        obtain ⟨v, hv⟩ := recordResult_results image_id t
          (dispatchAnalysis cfg oracle request model_name st t).1
          (dispatchAnalysis cfg oracle request model_name st t).2
        rw [hv, (dispatchAnalysis_snd cfg oracle request model_name st t).1]
        exact hasKey_dictInsert_self _ _ _
      refine ⟨fun t' h => (ih _).1 t' (hkeys t' h), ?_⟩
      intro t0 ht0
      rcases List.mem_cons.mp ht0 with h | h
      · subst h
        exact (ih _).1 t0 hself
      · exact (ih _).2 t0 h

/-- When the kind is one the dispatch sends to the client and the oracle call
succeeds, the loop body performs exactly one client call and stages exactly
one `AnalysisResult` row carrying the call's text and duration and the fresh
primary key. -/
theorem analysisStep_valid_ok (cfg : Config) (oracle : Nat → RawOutcome)
    (request : AnalyzeRequest) (model_name : String) (image_id : Nat)
    (st : LoopState) (t : String) (hv : validKind request t = true)
    (resp : String) (tm : Nat) (ho : oracle st.k = .ok resp tm) :
    ∃ c : ClientCall,
      analysisStep cfg oracle request model_name image_id st t =
        { results := dictInsert st.results t (.text resp),
          total := st.total + tm,
          db := { st.db with
                  pendingAnalyses := st.db.pendingAnalyses ++
                    [{ id := st.db.nextAnalysisId, image_id := image_id,
                       model_name := clientModelName model_name cfg.ollama_model,
                       analysis_type := t, result_response := resp,
                       processing_time_ms := tm }],
                  nextAnalysisId := st.db.nextAnalysisId + 1 },
          k := st.k + 1,
          calls := st.calls ++ [c] } := by
  simp only [validKind, Bool.or_eq_true, Bool.and_eq_true, beq_iff_eq] at hv
  rcases hv with ((h | h) | h) | ⟨h, hp⟩
  · subst h
    exact ⟨.describe model_name, by
      rw [analysisStep_eq]
      simp [dispatchAnalysis, runClientCall, recordResult, ho]⟩
  · subst h
    exact ⟨.detectObjects model_name, by
      rw [analysisStep_eq]
      simp [dispatchAnalysis, runClientCall, recordResult, ho]⟩
  · subst h
    exact ⟨.extractText model_name, by
      rw [analysisStep_eq]
      simp [dispatchAnalysis, runClientCall, recordResult, ho]⟩
  · subst h
    exact ⟨.customCall (request.custom_prompt.getD "") model_name, by
      rw [analysisStep_eq]
      simp [dispatchAnalysis, runClientCall, recordResult, ho, hp]⟩

/-- Over a list of kinds that are all client-dispatched, with an oracle that
always succeeds, the loop appends exactly one row per kind, in list order,
with consecutive fresh ids, and performs exactly one client call per kind. -/
theorem foldl_analysisStep_all_ok (cfg : Config) (oracle : Nat → RawOutcome)
    (request : AnalyzeRequest) (model_name : String) (image_id : Nat)
    (hok : ∀ n, (oracle n).isOk = true) :
    ∀ (l : List String) (st : LoopState),
      (∀ t ∈ l, validKind request t = true) →
      ∃ rows : List AnalysisRow,
        (l.foldl (analysisStep cfg oracle request model_name image_id) st).db.pendingAnalyses
            = st.db.pendingAnalyses ++ rows ∧
        rows.map (fun r => r.analysis_type) = l ∧
        rows.map (fun r => r.id) = List.range' st.db.nextAnalysisId l.length ∧
        (∀ r ∈ rows, r.image_id = image_id) ∧
        (l.foldl (analysisStep cfg oracle request model_name image_id) st).db.nextAnalysisId
            = st.db.nextAnalysisId + l.length ∧
        (l.foldl (analysisStep cfg oracle request model_name image_id) st).k
            = st.k + l.length := by
  intro l
  induction l with
  | nil =>
      intro st _
      exact ⟨[], by simp, rfl, by simp [List.range'], by simp, by simp, by simp⟩
  | cons t rest ih =>
      intro st hv
      rw [List.foldl_cons]
      obtain ⟨resp, tm, ho⟩ : ∃ resp tm, oracle st.k = .ok resp tm := by
        have hko := hok st.k
        rcases hoc : oracle st.k with ⟨r, m⟩ | ⟨e, m⟩
        · exact ⟨r, m, rfl⟩
        · rw [hoc] at hko; simp [RawOutcome.isOk] at hko
      obtain ⟨c, hc⟩ := analysisStep_valid_ok cfg oracle request model_name
        image_id st t (hv t (by simp)) resp tm ho
      rw [hc]
      obtain ⟨rows1, hpa, hty, hid, him, hnid, hk⟩ :=
        ih _ (fun t' ht' => hv t' (List.mem_cons_of_mem _ ht'))
      refine ⟨{ id := st.db.nextAnalysisId, image_id := image_id,
                model_name := clientModelName model_name cfg.ollama_model,
                analysis_type := t, result_response := resp,
                processing_time_ms := tm } :: rows1, ?_, ?_, ?_, ?_, ?_, ?_⟩
      · rw [hpa]
        simp
      · simp only [List.map_cons, hty]
      · simp only [List.map_cons, hid, List.length_cons]
        rw [List.range'_succ]
      · intro r hr
        rcases List.mem_cons.mp hr with h | h
        · subst h; rfl
        · exact him r h
      · rw [hnid]
        simp only [List.length_cons]
        omega
      · rw [hk]
        simp only [List.length_cons]
        omega

theorem newImageRow_filename (fs : FS) (fn path : String) (id : Nat) :
    (newImageRow fs fn path id).filename = fn := rfl

theorem newImageRow_id (fs : FS) (fn path : String) (id : Nat) :
    (newImageRow fs fn path id).id = id := rfl

theorem findImage_some (db : DB) (fn : String) (img : ImageRow)
    (h : db.findImage fn = some img) : img.filename = fn ∧ img ∈ db.images := by
  unfold DB.findImage at h
  refine ⟨?_, List.mem_of_find?_eq_some h⟩
  have := List.find?_some h
  simpa using this

theorem findOrCreateImage_found (fs : FS) (fn path : String) (db : DB)
    (img : ImageRow) (h : db.findImage fn = some img) :
    findOrCreateImage fs fn path db = (img, db) := by
  unfold findOrCreateImage
  rw [h]

theorem findOrCreateImage_notFound (fs : FS) (fn path : String) (db : DB)
    (h : db.findImage fn = none) :
    findOrCreateImage fs fn path db =
      (newImageRow fs fn path db.nextImageId,
       { images := db.images ++
            (db.pendingImages ++ [newImageRow fs fn path db.nextImageId]),
         analyses := db.analyses ++ db.pendingAnalyses,
         pendingImages := [],
         pendingAnalyses := [],
         nextImageId := db.nextImageId + 1,
         nextAnalysisId := db.nextAnalysisId,
         commits := db.commits ++
            [⟨db.pendingImages ++ [newImageRow fs fn path db.nextImageId],
              db.pendingAnalyses⟩] }) := by
  unfold findOrCreateImage
  rw [h]
  rfl

/-- With a fresh session (no pending analysis rows), the find-or-create step
never changes the committed analyses table, leaves no pending analysis rows,
and does not touch the analysis-id counter. -/
theorem findOrCreateImage_snd_props (fs : FS) (fn path : String) (db : DB)
    (hpa : db.pendingAnalyses = []) :
    (findOrCreateImage fs fn path db).2.analyses = db.analyses ∧
    (findOrCreateImage fs fn path db).2.pendingAnalyses = [] ∧
    (findOrCreateImage fs fn path db).2.nextAnalysisId = db.nextAnalysisId := by
  rcases hfind : db.findImage fn with _ | img
  · rw [findOrCreateImage_notFound fs fn path db hfind]
    simp [hpa]
  · rw [findOrCreateImage_found fs fn path db img hfind]
    exact ⟨rfl, hpa, rfl⟩

/-- Shape of `analyze_image` when the endpoint is reached normally (FastAPI
supplies `background_tasks`) and the file exists: find-or-create, loop,
final commit, aggregate response. -/
theorem analyze_image_ok_eq (cfg : Config) (fs : FS) (oracle : Nat → RawOutcome)
    (request : AnalyzeRequest) (bt : BackgroundTasks) (db : DB) (k : Nat)
    (h : fs.fileExists (cfg.input_dir ++ "/" ++ request.filename) = true) :
    analyze_image cfg fs oracle request (some bt) db k =
      (let image_path := cfg.input_dir ++ "/" ++ request.filename
       let p := findOrCreateImage fs request.filename image_path db
       let model_name := pyOrStr request.model cfg.ollama_model
       let stF := request.analyses.foldl
         (analysisStep cfg oracle request model_name p.1.id)
         { results := [], total := 0, db := p.2, k := k, calls := [] }
       { result := .ok
           { image_id := p.1.id, filename := request.filename,
             model := model_name, results := stF.results,
             processing_time_ms := stF.total },
         db := stF.db.commit, calls := stF.calls, k := stF.k }) := by
  unfold analyze_image
  rcases hp : findOrCreateImage fs request.filename
      (cfg.input_dir ++ "/" ++ request.filename) db with ⟨img, db1⟩
  simp only [h, if_true, hp]

/-- Shape of `analyze_image` when the file is missing: the 404 is raised
before any session access, so the session is unchanged and no client call
happens. -/
theorem analyze_image_not_found_eq (cfg : Config) (fs : FS)
    (oracle : Nat → RawOutcome) (request : AnalyzeRequest)
    (bt : BackgroundTasks) (db : DB) (k : Nat)
    (h : fs.fileExists (cfg.input_dir ++ "/" ++ request.filename) = false) :
    analyze_image cfg fs oracle request (some bt) db k =
      { result := .error (.httpException 404
          ("Image not found: " ++ request.filename)),
        db := db, calls := [], k := k } := by
  unfold analyze_image
  simp only [h, Bool.false_eq_true, if_false]

/-- A full request over a filename whose `Image` row already exists, with
every kind client-dispatched and an always-succeeding oracle: the response
carries the found row's id, the images table only gains the session's
flushed pending rows, and exactly one new `AnalysisResult` row per kind is
appended, in order, with consecutive fresh ids. -/
theorem analyze_image_found_all_ok (cfg : Config) (fs : FS)
    (oracle : Nat → RawOutcome) (request : AnalyzeRequest)
    (bt : BackgroundTasks) (db : DB) (k : Nat) (img : ImageRow)
    (h2 : fs.fileExists (cfg.input_dir ++ "/" ++ request.filename) = true)
    (hval : ∀ t ∈ request.analyses, validKind request t = true)
    (hok : ∀ n, (oracle n).isOk = true)
    (hpa : db.pendingAnalyses = [])
    (hfind : db.findImage request.filename = some img) :
    ∃ (resp : AnalysisResponse) (rows : List AnalysisRow),
      (analyze_image cfg fs oracle request (some bt) db k).result = .ok resp ∧
      resp.image_id = img.id ∧
      (analyze_image cfg fs oracle request (some bt) db k).db.images
        = db.images ++ db.pendingImages ∧
      (analyze_image cfg fs oracle request (some bt) db k).db.pendingImages
        = [] ∧
      (analyze_image cfg fs oracle request (some bt) db k).db.pendingAnalyses
        = [] ∧
      (analyze_image cfg fs oracle request (some bt) db k).db.analyses
        = db.analyses ++ rows ∧
      (analyze_image cfg fs oracle request (some bt) db k).db.nextAnalysisId
        = db.nextAnalysisId + request.analyses.length ∧
      rows.map (fun r => r.analysis_type) = request.analyses ∧
      rows.map (fun r => r.id)
        = List.range' db.nextAnalysisId request.analyses.length ∧
      (∀ r ∈ rows, r.image_id = img.id) := by
  rw [analyze_image_ok_eq cfg fs oracle request bt db k h2]
  dsimp only
  rw [findOrCreateImage_found fs _ _ db img hfind]
  dsimp only
  obtain ⟨him, hpi', han, _, _, rows0, hrows0, _, _⟩ :=
    foldl_analysisStep_db cfg oracle request
      (pyOrStr request.model cfg.ollama_model) img.id request.analyses
      { results := [], total := 0, db := db, k := k, calls := [] }
  obtain ⟨rows, hpa', hty, hid, himg2, hnid, _⟩ :=
    foldl_analysisStep_all_ok cfg oracle request
      (pyOrStr request.model cfg.ollama_model) img.id hok request.analyses
      { results := [], total := 0, db := db, k := k, calls := [] } hval
  refine ⟨_, rows, rfl, rfl, ?_, ?_, ?_, ?_, ?_, hty, ?_, himg2⟩
  · simp only [DB.commit]
    rw [him, hpi']
  · simp only [DB.commit]
  · simp only [DB.commit]
  · simp only [DB.commit]
    rw [han, hpa']
    dsimp only
    simp [hpa]
  · simp only [DB.commit]
    rw [hnid]
  · rw [hid]

/-- A full request over a first-time filename with every kind
client-dispatched and an always-succeeding oracle: the new `Image` row is
created and committed, the response carries its id, and exactly one new
`AnalysisResult` row per kind is appended with consecutive fresh ids. -/
theorem analyze_image_create_all_ok (cfg : Config) (fs : FS)
    (oracle : Nat → RawOutcome) (request : AnalyzeRequest)
    (bt : BackgroundTasks) (db : DB) (k : Nat)
    (h2 : fs.fileExists (cfg.input_dir ++ "/" ++ request.filename) = true)
    (hval : ∀ t ∈ request.analyses, validKind request t = true)
    (hok : ∀ n, (oracle n).isOk = true)
    (hpi : db.pendingImages = [])
    (hpa : db.pendingAnalyses = [])
    (hfind : db.findImage request.filename = none) :
    ∃ (resp : AnalysisResponse) (rows : List AnalysisRow),
      (analyze_image cfg fs oracle request (some bt) db k).result = .ok resp ∧
      resp.image_id = (newImageRow fs request.filename
        (cfg.input_dir ++ "/" ++ request.filename) db.nextImageId).id ∧
      (analyze_image cfg fs oracle request (some bt) db k).db.images
        = db.images ++ [newImageRow fs request.filename
            (cfg.input_dir ++ "/" ++ request.filename) db.nextImageId] ∧
      (analyze_image cfg fs oracle request (some bt) db k).db.pendingImages
        = [] ∧
      (analyze_image cfg fs oracle request (some bt) db k).db.pendingAnalyses
        = [] ∧
      (analyze_image cfg fs oracle request (some bt) db k).db.analyses
        = db.analyses ++ rows ∧
      (analyze_image cfg fs oracle request (some bt) db k).db.nextAnalysisId
        = db.nextAnalysisId + request.analyses.length ∧
      rows.map (fun r => r.analysis_type) = request.analyses ∧
      rows.map (fun r => r.id)
        = List.range' db.nextAnalysisId request.analyses.length ∧
      (∀ r ∈ rows, r.image_id = (newImageRow fs request.filename
        (cfg.input_dir ++ "/" ++ request.filename) db.nextImageId).id) := by
  rw [analyze_image_ok_eq cfg fs oracle request bt db k h2]
  dsimp only
  rw [findOrCreateImage_notFound fs _ _ db hfind]
  dsimp only
  obtain ⟨him, hpi', han, _, _, rows0, hrows0, _, _⟩ :=
    foldl_analysisStep_db cfg oracle request
      (pyOrStr request.model cfg.ollama_model)
      (newImageRow fs request.filename
        (cfg.input_dir ++ "/" ++ request.filename) db.nextImageId).id
      request.analyses
      { results := [], total := 0,
        db := { images := db.images ++ (db.pendingImages ++
                  [newImageRow fs request.filename
                    (cfg.input_dir ++ "/" ++ request.filename) db.nextImageId]),
                analyses := db.analyses ++ db.pendingAnalyses,
                pendingImages := [],
                pendingAnalyses := [],
                nextImageId := db.nextImageId + 1,
                nextAnalysisId := db.nextAnalysisId,
                commits := db.commits ++
                  [⟨db.pendingImages ++
                      [newImageRow fs request.filename
                        (cfg.input_dir ++ "/" ++ request.filename) db.nextImageId],
                    db.pendingAnalyses⟩] },
        k := k, calls := [] }
  obtain ⟨rows, hpa', hty, hid, himg2, hnid, _⟩ :=
    foldl_analysisStep_all_ok cfg oracle request
      (pyOrStr request.model cfg.ollama_model)
      (newImageRow fs request.filename
        (cfg.input_dir ++ "/" ++ request.filename) db.nextImageId).id
      hok request.analyses
      { results := [], total := 0,
        db := { images := db.images ++ (db.pendingImages ++
                  [newImageRow fs request.filename
                    (cfg.input_dir ++ "/" ++ request.filename) db.nextImageId]),
                analyses := db.analyses ++ db.pendingAnalyses,
                pendingImages := [],
                pendingAnalyses := [],
                nextImageId := db.nextImageId + 1,
                nextAnalysisId := db.nextAnalysisId,
                commits := db.commits ++
                  [⟨db.pendingImages ++
                      [newImageRow fs request.filename
                        (cfg.input_dir ++ "/" ++ request.filename) db.nextImageId],
                    db.pendingAnalyses⟩] },
        k := k, calls := [] }
      hval
  refine ⟨_, rows, rfl, rfl, ?_, ?_, ?_, ?_, ?_, hty, ?_, himg2⟩
  · simp only [DB.commit]
    rw [him, hpi']
    dsimp only
    simp [hpi]
  · simp only [DB.commit]
  · simp only [DB.commit]
  · simp only [DB.commit]
    rw [han, hpa']
    dsimp only
    simp [hpa]
  · simp only [DB.commit]
    rw [hnid]
  · rw [hid]

/-! ## Claim theorems -/

/-- C7: `OllamaClient.analyze_image` sends exactly one HTTP request, carrying
`timeout=120` (seconds), and never raises: in particular when the transport
raises (timeout or any other `RequestException`) it returns the failure dict
with `success=false`, the error message, and the elapsed milliseconds. -/
theorem c7_client_failure_result (c : OllamaConfig)
    (transport : GenRequest → TransportOutcome) (elapsed_ms : Nat)
    (image_b64 prompt : String) (model : Option String) :
    ((OllamaClient_analyze_image c transport elapsed_ms image_b64 prompt model).2 =
      [{ url := c.base_url ++ "/api/generate",
         model := pyOrStr model c.model, prompt := prompt,
         images := [image_b64], stream := false, timeout := 120 }]) ∧
    (∀ message : String,
      transport { url := c.base_url ++ "/api/generate",
                  model := pyOrStr model c.model, prompt := prompt,
                  images := [image_b64], stream := false, timeout := 120 }
        = .exn message →
      (OllamaClient_analyze_image c transport elapsed_ms image_b64 prompt model).1 =
        { success := false, model := pyOrStr model c.model, response := none,
          error := some message, processing_time_ms := elapsed_ms }) := by
  constructor
  · simp only [OllamaClient_analyze_image]
    rcases transport _ with ⟨s, r, b⟩ | ⟨m⟩
    · dsimp only
      split <;> rfl
    · rfl
  · intro message hmsg
    simp only [OllamaClient_analyze_image, hmsg]

/-- Witness for C7 at a concrete timed-out transport. -/
theorem c7_client_failure_result_witness :
    (OllamaClient_analyze_image
        { base_url := "http://localhost:11434", model := "llava:13b" }
        (fun _ => .exn "Read timed out. (read timeout=120)")
        120000 "b64bytes" "Describe this street view image" none).1 =
      { success := false, model := "llava:13b", response := none,
        error := some "Read timed out. (read timeout=120)",
        processing_time_ms := 120000 } :=
  (c7_client_failure_result
      { base_url := "http://localhost:11434", model := "llava:13b" }
      (fun _ => .exn "Read timed out. (read timeout=120)")
      120000 "b64bytes" "Describe this street view image" none).2
    "Read timed out. (read timeout=120)" rfl

/-- C8: the `/models` response returns the fetched model list unchanged as
`all_models`, its case-insensitive `llava`/`vision` substring filter as
`vision_models` (a sublist of `all_models`, order preserved), and the
configured default model identifier as `default_model`. -/
theorem c8_models_response (cfg : Config) (models : List String) :
    (list_models cfg models).all_models = models ∧
    (list_models cfg models).vision_models = models.filter
      (fun m => strContains m.toLower "llava" || strContains m.toLower "vision") ∧
    (list_models cfg models).vision_models.Sublist models ∧
    (list_models cfg models).default_model = cfg.ollama_model :=
  ⟨rfl, rfl, List.filter_sublist models, rfl⟩

/-- C2 (code bug): in a batch over `[A, B]` with `A` on disk and `B` absent,
every per-filename call of `analyze_image` omits the required positional
argument `background_tasks` and raises `TypeError`, which the per-filename
`except` swallows — so the response reports `successful=0, failed=2`, `A`'s
entry has `success=false`, and nothing is persisted, contradicting the
claimed `successful=1, failed=1` with `A`'s rows persisted. -/
theorem c2_batch_typeerror_all_fail :
    (analyze_batch testCfg testFS testOracle
        { filenames := ["a.jpg", "b.jpg"], analyses := ["description"],
          model := none } emptyDB 0).response =
      { total := 2, successful := 0, failed := 2,
        results :=
          [{ filename := "a.jpg", success := false, result := none,
             error := some "analyze_image() missing 1 required positional argument: 'background_tasks'" },
           { filename := "b.jpg", success := false, result := none,
             error := some "analyze_image() missing 1 required positional argument: 'background_tasks'" }] } ∧
    (analyze_batch testCfg testFS testOracle
        { filenames := ["a.jpg", "b.jpg"], analyses := ["description"],
          model := none } emptyDB 0).db = emptyDB ∧
    (analyze_batch testCfg testFS testOracle
        { filenames := ["a.jpg", "b.jpg"], analyses := ["description"],
          model := none } emptyDB 0).calls = [] :=
  ⟨rfl, rfl, rfl⟩

/-- C5 counterexample: for a first-time filename the request performs two
commits, not one — the first contains exactly the new `Image` row and no
analysis rows, and the second contains the analysis rows and no `Image` row.
So it is false that "the only commits in the request are this single
end-of-request commit of the analysis rows" including the `Image` row. -/
theorem c5_counterexample_two_commits :
    ((analyze_image testCfg testFS testOracle
        { filename := "a.jpg", analyses := ["description"] }
        (some ⟨⟩) emptyDB 0).db.commits.map
      (fun c => (c.images.length, c.analyses.length))) = [(1, 0), (0, 1)] := rfl

/-- C1: a filename that does not resolve to an existing file under the input
root makes the request fail with the 404 `HTTPException` before any session
access — no `Image` row, no `AnalysisResult` row, no commit, no client call;
conversely, whenever the file exists the request never aborts: it returns a
response, and every requested kind — unknown, `custom` without a prompt, or
one whose model invocation failed — still has its own slot in the results
map, regardless of the oracle's behavior. -/
theorem c1_not_found_only_abort (cfg : Config) (fs : FS)
    (oracle : Nat → RawOutcome) (request : AnalyzeRequest)
    (bt : BackgroundTasks) (db : DB) (k : Nat) :
    (fs.fileExists (cfg.input_dir ++ "/" ++ request.filename) = false →
      analyze_image cfg fs oracle request (some bt) db k =
        { result := .error (.httpException 404
            ("Image not found: " ++ request.filename)),
          db := db, calls := [], k := k }) ∧
    (fs.fileExists (cfg.input_dir ++ "/" ++ request.filename) = true →
      ∃ resp : AnalysisResponse,
        (analyze_image cfg fs oracle request (some bt) db k).result = .ok resp ∧
        ∀ t ∈ request.analyses, hasKey resp.results t = true) := by
  constructor
  · intro h
    exact analyze_image_not_found_eq cfg fs oracle request bt db k h
  · intro h
    rw [analyze_image_ok_eq cfg fs oracle request bt db k h]
    refine ⟨_, rfl, ?_⟩
    intro t ht
    exact (foldl_analysisStep_hasKey cfg oracle request
      (pyOrStr request.model cfg.ollama_model)
      (findOrCreateImage fs request.filename
        (cfg.input_dir ++ "/" ++ request.filename) db).1.id
      request.analyses _).2 t ht

/-- Witness for C1: a missing file gives exactly the 404 outcome with an
untouched session, and an existing file with an always-failing oracle and an
invalid kind in the list still returns a response with a slot per kind. -/
theorem c1_not_found_only_abort_witness :
    (testFS.fileExists ("/app/input" ++ "/" ++ "missing.jpg") = false ∧
      analyze_image testCfg testFS testOracle { filename := "missing.jpg" }
          (some ⟨⟩) emptyDB 0 =
        { result := .error (.httpException 404
            ("Image not found: " ++ "missing.jpg")),
          db := emptyDB, calls := [], k := 0 }) ∧
    (testFS.fileExists ("/app/input" ++ "/" ++ "a.jpg") = true ∧
      ∃ resp : AnalysisResponse,
        (analyze_image testCfg testFS failOracle
            { filename := "a.jpg", analyses := ["description", "bogus"] }
            (some ⟨⟩) emptyDB 0).result = .ok resp ∧
        ∀ t ∈ ["description", "bogus"], hasKey resp.results t = true) :=
  ⟨⟨rfl,
    (c1_not_found_only_abort testCfg testFS testOracle
      { filename := "missing.jpg" } ⟨⟩ emptyDB 0).1 rfl⟩,
   ⟨rfl,
    (c1_not_found_only_abort testCfg testFS failOracle
      { filename := "a.jpg", analyses := ["description", "bogus"] }
      ⟨⟩ emptyDB 0).2 rfl⟩⟩

/-- C10: an analyze request with an empty analyses list over an existing file
succeeds: the `Image` row is still found or created (and is in the committed
images table afterwards), the response carries that image's id and the
filename, the results map is empty, `processing_time_ms` is 0, and no client
call and no `AnalysisResult` row occurs. -/
theorem c10_empty_analyses (cfg : Config) (fs : FS) (oracle : Nat → RawOutcome)
    (request : AnalyzeRequest) (bt : BackgroundTasks) (db : DB) (k : Nat)
    (h1 : request.analyses = [])
    (h2 : fs.fileExists (cfg.input_dir ++ "/" ++ request.filename) = true)
    (hpa : db.pendingAnalyses = []) :
    ∃ resp : AnalysisResponse,
      (analyze_image cfg fs oracle request (some bt) db k).result = .ok resp ∧
      resp.filename = request.filename ∧
      resp.results = [] ∧
      resp.processing_time_ms = 0 ∧
      (analyze_image cfg fs oracle request (some bt) db k).calls = [] ∧
      (analyze_image cfg fs oracle request (some bt) db k).db.analyses
        = db.analyses ∧
      ∃ img : ImageRow,
        img ∈ (analyze_image cfg fs oracle request (some bt) db k).db.images ∧
        img.filename = request.filename ∧ resp.image_id = img.id := by
  rw [analyze_image_ok_eq cfg fs oracle request bt db k h2, h1]
  refine ⟨_, rfl, rfl, rfl, rfl, rfl, ?_, ?_⟩
  all_goals dsimp only
  · rcases hfind : db.findImage request.filename with _ | img
    · rw [findOrCreateImage_notFound fs _ _ db hfind]
      simp [DB.commit, hpa]
    · rw [findOrCreateImage_found fs _ _ db img hfind]
      simp [DB.commit, hpa]
  · rcases hfind : db.findImage request.filename with _ | img
    · rw [findOrCreateImage_notFound fs _ _ db hfind]
      refine ⟨newImageRow fs request.filename
        (cfg.input_dir ++ "/" ++ request.filename) db.nextImageId,
        ?_, rfl, rfl⟩
      simp [DB.commit]
    · rw [findOrCreateImage_found fs _ _ db img hfind]
      refine ⟨img, ?_, (findImage_some db _ img hfind).1, rfl⟩
      simp only [DB.commit]
      exact List.mem_append_left _ (findImage_some db _ img hfind).2

/-- Witness for C10: an empty analyses list over the existing `a.jpg`. -/
theorem c10_empty_analyses_witness :
    ∃ resp : AnalysisResponse,
      (analyze_image testCfg testFS testOracle
          { filename := "a.jpg", analyses := [] }
          (some ⟨⟩) emptyDB 0).result = .ok resp ∧
      resp.filename = "a.jpg" ∧
      resp.results = [] ∧
      resp.processing_time_ms = 0 ∧
      (analyze_image testCfg testFS testOracle
          { filename := "a.jpg", analyses := [] }
          (some ⟨⟩) emptyDB 0).calls = [] ∧
      (analyze_image testCfg testFS testOracle
          { filename := "a.jpg", analyses := [] }
          (some ⟨⟩) emptyDB 0).db.analyses = emptyDB.analyses ∧
      ∃ img : ImageRow,
        img ∈ (analyze_image testCfg testFS testOracle
          { filename := "a.jpg", analyses := [] }
          (some ⟨⟩) emptyDB 0).db.images ∧
        img.filename = "a.jpg" ∧ resp.image_id = img.id :=
  c10_empty_analyses testCfg testFS testOracle
    { filename := "a.jpg", analyses := [] } ⟨⟩ emptyDB 0 rfl rfl rfl

/-- C4: a kind the dispatch does not recognize — any string other than the
three fixed kinds, including `custom` without a truthy `custom_prompt` —
gets exactly `{'error': 'Unknown analysis type: k'}` in its slot of the
results map, no `AnalysisResult` row is persisted for it, and the Model
Client is never invoked. -/
theorem c4_unknown_kind_isolated (cfg : Config) (fs : FS)
    (oracle : Nat → RawOutcome) (request : AnalyzeRequest)
    (bt : BackgroundTasks) (db : DB) (k : Nat) (t : String)
    (h1 : request.analyses = [t])
    (h2 : fs.fileExists (cfg.input_dir ++ "/" ++ request.filename) = true)
    (hd : (t == "description") = false)
    (hob : (t == "object_detection") = false)
    (hoc : (t == "ocr") = false)
    (hcu : (t == "custom" && pyTruthy request.custom_prompt) = false)
    (hpa : db.pendingAnalyses = []) :
    ∃ resp : AnalysisResponse,
      (analyze_image cfg fs oracle request (some bt) db k).result = .ok resp ∧
      resp.results = [(t, .errorObj ("Unknown analysis type: " ++ t))] ∧
      resp.processing_time_ms = 0 ∧
      (analyze_image cfg fs oracle request (some bt) db k).calls = [] ∧
      (analyze_image cfg fs oracle request (some bt) db k).db.analyses
        = db.analyses := by
  rw [analyze_image_ok_eq cfg fs oracle request bt db k h2, h1]
  refine ⟨_, rfl, ?_, ?_, ?_, ?_⟩
  all_goals dsimp only
  · simp [List.foldl_cons, List.foldl_nil, analysisStep_eq, dispatchAnalysis,
      hd, hob, hoc, hcu, recordResult, dictInsert_nil]
  · simp [List.foldl_cons, List.foldl_nil, analysisStep_eq, dispatchAnalysis,
      hd, hob, hoc, hcu, recordResult]
  · simp [List.foldl_cons, List.foldl_nil, analysisStep_eq, dispatchAnalysis,
      hd, hob, hoc, hcu, recordResult]
  · rcases hfind : db.findImage request.filename with _ | img
    · rw [findOrCreateImage_notFound fs _ _ db hfind]
      simp [List.foldl_cons, List.foldl_nil, analysisStep_eq, dispatchAnalysis,
        hd, hob, hoc, hcu, recordResult, DB.commit, hpa]
    · rw [findOrCreateImage_found fs _ _ db img hfind]
      simp [List.foldl_cons, List.foldl_nil, analysisStep_eq, dispatchAnalysis,
        hd, hob, hoc, hcu, recordResult, DB.commit, hpa]

/-- Witness for C4 at `analyses=["bogus"]` and at `analyses=["custom"]`
without a `custom_prompt`. -/
theorem c4_unknown_kind_isolated_witness :
    (∃ resp : AnalysisResponse,
      (analyze_image testCfg testFS testOracle
          { filename := "a.jpg", analyses := ["bogus"] }
          (some ⟨⟩) emptyDB 0).result = .ok resp ∧
      resp.results = [("bogus", .errorObj ("Unknown analysis type: " ++ "bogus"))] ∧
      resp.processing_time_ms = 0 ∧
      (analyze_image testCfg testFS testOracle
          { filename := "a.jpg", analyses := ["bogus"] }
          (some ⟨⟩) emptyDB 0).calls = [] ∧
      (analyze_image testCfg testFS testOracle
          { filename := "a.jpg", analyses := ["bogus"] }
          (some ⟨⟩) emptyDB 0).db.analyses = emptyDB.analyses) ∧
    (∃ resp : AnalysisResponse,
      (analyze_image testCfg testFS testOracle
          { filename := "a.jpg", analyses := ["custom"] }
          (some ⟨⟩) emptyDB 0).result = .ok resp ∧
      resp.results = [("custom", .errorObj ("Unknown analysis type: " ++ "custom"))] ∧
      resp.processing_time_ms = 0 ∧
      (analyze_image testCfg testFS testOracle
          { filename := "a.jpg", analyses := ["custom"] }
          (some ⟨⟩) emptyDB 0).calls = [] ∧
      (analyze_image testCfg testFS testOracle
          { filename := "a.jpg", analyses := ["custom"] }
          (some ⟨⟩) emptyDB 0).db.analyses = emptyDB.analyses) :=
  ⟨c4_unknown_kind_isolated testCfg testFS testOracle
      { filename := "a.jpg", analyses := ["bogus"] } ⟨⟩ emptyDB 0 "bogus"
      rfl rfl rfl rfl rfl rfl rfl,
   c4_unknown_kind_isolated testCfg testFS testOracle
      { filename := "a.jpg", analyses := ["custom"] } ⟨⟩ emptyDB 0 "custom"
      rfl rfl rfl rfl rfl rfl rfl⟩

/-- C3: for `analyses = ["description", "object_detection"]` with both model
invocations succeeding, the results map has exactly those two keys, each
holding the model's text, and `processing_time_ms` is the sum of the two
persisted per-analysis durations; in general (second conjunct), for any
analyses list `processing_time_ms` equals the sum of the durations of
exactly the rows persisted by the request, so failed or invalid kinds
contribute nothing to the sum. -/
theorem c3_two_kinds_sum (cfg : Config) (fs : FS) (bt : BackgroundTasks)
    (db : DB) (k : Nat) :
    (∀ (oracle : Nat → RawOutcome) (request : AnalyzeRequest)
        (r1 r2 : String) (t1 t2 : Nat),
      request.analyses = ["description", "object_detection"] →
      fs.fileExists (cfg.input_dir ++ "/" ++ request.filename) = true →
      oracle k = .ok r1 t1 →
      oracle (k + 1) = .ok r2 t2 →
      db.pendingAnalyses = [] →
      ∃ (resp : AnalysisResponse) (rows : List AnalysisRow),
        (analyze_image cfg fs oracle request (some bt) db k).result = .ok resp ∧
        resp.results = [("description", .text r1),
                        ("object_detection", .text r2)] ∧
        resp.processing_time_ms = t1 + t2 ∧
        (analyze_image cfg fs oracle request (some bt) db k).db.analyses
          = db.analyses ++ rows ∧
        rows.map (fun r => r.analysis_type)
          = ["description", "object_detection"] ∧
        rows.map (fun r => r.processing_time_ms) = [t1, t2]) ∧
    (∀ (oracle : Nat → RawOutcome) (request : AnalyzeRequest),
      fs.fileExists (cfg.input_dir ++ "/" ++ request.filename) = true →
      db.pendingAnalyses = [] →
      ∃ (resp : AnalysisResponse) (rows : List AnalysisRow),
        (analyze_image cfg fs oracle request (some bt) db k).result = .ok resp ∧
        (analyze_image cfg fs oracle request (some bt) db k).db.analyses
          = db.analyses ++ rows ∧
        resp.processing_time_ms
          = (rows.map (fun r => r.processing_time_ms)).sum) := by
  constructor
  · intro oracle request r1 r2 t1 t2 h1 h2 ho1 ho2 hpa
    obtain ⟨ha, hpa2, hnid⟩ := findOrCreateImage_snd_props fs request.filename
      (cfg.input_dir ++ "/" ++ request.filename) db hpa
    rw [analyze_image_ok_eq cfg fs oracle request bt db k h2, h1]
    dsimp only
    refine ⟨_,
      [{ id := (findOrCreateImage fs request.filename
            (cfg.input_dir ++ "/" ++ request.filename) db).2.nextAnalysisId,
         image_id := (findOrCreateImage fs request.filename
            (cfg.input_dir ++ "/" ++ request.filename) db).1.id,
         model_name := clientModelName (pyOrStr request.model cfg.ollama_model)
            cfg.ollama_model,
         analysis_type := "description", result_response := r1,
         processing_time_ms := t1 },
       { id := (findOrCreateImage fs request.filename
            (cfg.input_dir ++ "/" ++ request.filename) db).2.nextAnalysisId + 1,
         image_id := (findOrCreateImage fs request.filename
            (cfg.input_dir ++ "/" ++ request.filename) db).1.id,
         model_name := clientModelName (pyOrStr request.model cfg.ollama_model)
            cfg.ollama_model,
         analysis_type := "object_detection", result_response := r2,
         processing_time_ms := t2 }], rfl, ?_, ?_, ?_, ?_, ?_⟩ <;>
      simp [List.foldl_cons, List.foldl_nil, analysisStep_eq, dispatchAnalysis,
        runClientCall, recordResult, dictInsert, DB.commit, ho1, ho2, ha, hpa2]
  · intro oracle request h2 hpa
    obtain ⟨ha, hpa2, hnid⟩ := findOrCreateImage_snd_props fs request.filename
      (cfg.input_dir ++ "/" ++ request.filename) db hpa
    rw [analyze_image_ok_eq cfg fs oracle request bt db k h2]
    dsimp only
    obtain ⟨_, _, han, _, _, rows, hrows, htot, _⟩ :=
      foldl_analysisStep_db cfg oracle request
        (pyOrStr request.model cfg.ollama_model)
        (findOrCreateImage fs request.filename
          (cfg.input_dir ++ "/" ++ request.filename) db).1.id
        request.analyses
        { results := [], total := 0,
          db := (findOrCreateImage fs request.filename
            (cfg.input_dir ++ "/" ++ request.filename) db).2,
          k := k, calls := [] }
    refine ⟨_, rows, rfl, ?_, ?_⟩
    · simp only [DB.commit]
      rw [han, hrows]
      dsimp only
      rw [ha, hpa2]
      simp
    · dsimp only
      rw [htot]
      dsimp only
      simp

/-- Witness for C3 with both invocations succeeding on `a.jpg`. -/
theorem c3_two_kinds_sum_witness :
    ∃ (resp : AnalysisResponse) (rows : List AnalysisRow),
      (analyze_image testCfg testFS testOracle
          { filename := "a.jpg",
            analyses := ["description", "object_detection"] }
          (some ⟨⟩) emptyDB 0).result = .ok resp ∧
      resp.results = [("description", .text "resp0"),
                      ("object_detection", .text "resp1")] ∧
      resp.processing_time_ms = 5 + 6 ∧
      (analyze_image testCfg testFS testOracle
          { filename := "a.jpg",
            analyses := ["description", "object_detection"] }
          (some ⟨⟩) emptyDB 0).db.analyses = emptyDB.analyses ++ rows ∧
      rows.map (fun r => r.analysis_type)
        = ["description", "object_detection"] ∧
      rows.map (fun r => r.processing_time_ms) = [5, 6] :=
  (c3_two_kinds_sum testCfg testFS ⟨⟩ emptyDB 0).1 testOracle
    { filename := "a.jpg", analyses := ["description", "object_detection"] }
    "resp0" "resp1" 5 6 rfl rfl rfl rfl rfl

/-- C9: when the analyses list repeats the same kind twice and both
invocations succeed, the Model Client is invoked twice and two
`AnalysisResult` rows are persisted, but the results map (a Python dict)
keeps a single key holding only the last invocation's text, while
`processing_time_ms` still includes both durations. -/
theorem c9_duplicate_kind (cfg : Config) (fs : FS) (bt : BackgroundTasks)
    (db : DB) (k : Nat) (oracle : Nat → RawOutcome)
    (request : AnalyzeRequest) (t : String) (r1 r2 : String) (t1 t2 : Nat)
    (h1 : request.analyses = [t, t])
    (h2 : fs.fileExists (cfg.input_dir ++ "/" ++ request.filename) = true)
    (hv : validKind request t = true)
    (ho1 : oracle k = .ok r1 t1)
    (ho2 : oracle (k + 1) = .ok r2 t2)
    (hpa : db.pendingAnalyses = []) :
    ∃ (resp : AnalysisResponse) (rows : List AnalysisRow),
      (analyze_image cfg fs oracle request (some bt) db k).result = .ok resp ∧
      (analyze_image cfg fs oracle request (some bt) db k).calls.length = 2 ∧
      (analyze_image cfg fs oracle request (some bt) db k).db.analyses
        = db.analyses ++ rows ∧
      rows.map (fun r => r.analysis_type) = [t, t] ∧
      rows.map (fun r => r.result_response) = [r1, r2] ∧
      rows.map (fun r => r.processing_time_ms) = [t1, t2] ∧
      resp.results = [(t, .text r2)] ∧
      resp.processing_time_ms = t1 + t2 := by
  obtain ⟨ha, hpa2, hnid⟩ := findOrCreateImage_snd_props fs request.filename
    (cfg.input_dir ++ "/" ++ request.filename) db hpa
  rw [analyze_image_ok_eq cfg fs oracle request bt db k h2, h1]
  dsimp only
  obtain ⟨c1, hc1⟩ := analysisStep_valid_ok cfg oracle request
    (pyOrStr request.model cfg.ollama_model)
    (findOrCreateImage fs request.filename
      (cfg.input_dir ++ "/" ++ request.filename) db).1.id
    { results := [], total := 0,
      db := (findOrCreateImage fs request.filename
        (cfg.input_dir ++ "/" ++ request.filename) db).2,
      k := k, calls := [] }
    t hv r1 t1 ho1
  obtain ⟨c2, hc2⟩ := analysisStep_valid_ok cfg oracle request
    (pyOrStr request.model cfg.ollama_model)
    (findOrCreateImage fs request.filename
      (cfg.input_dir ++ "/" ++ request.filename) db).1.id
    (analysisStep cfg oracle request (pyOrStr request.model cfg.ollama_model)
      (findOrCreateImage fs request.filename
        (cfg.input_dir ++ "/" ++ request.filename) db).1.id
      { results := [], total := 0,
        db := (findOrCreateImage fs request.filename
          (cfg.input_dir ++ "/" ++ request.filename) db).2,
        k := k, calls := [] }
      t)
    t hv r2 t2 (by rw [hc1]; exact ho2)
  rw [List.foldl_cons, List.foldl_cons, List.foldl_nil, hc2, hc1]
  refine ⟨_,
    [{ id := (findOrCreateImage fs request.filename
          (cfg.input_dir ++ "/" ++ request.filename) db).2.nextAnalysisId,
       image_id := (findOrCreateImage fs request.filename
          (cfg.input_dir ++ "/" ++ request.filename) db).1.id,
       model_name := clientModelName (pyOrStr request.model cfg.ollama_model)
          cfg.ollama_model,
       analysis_type := t, result_response := r1,
       processing_time_ms := t1 },
     { id := (findOrCreateImage fs request.filename
          (cfg.input_dir ++ "/" ++ request.filename) db).2.nextAnalysisId + 1,
       image_id := (findOrCreateImage fs request.filename
          (cfg.input_dir ++ "/" ++ request.filename) db).1.id,
       model_name := clientModelName (pyOrStr request.model cfg.ollama_model)
          cfg.ollama_model,
       analysis_type := t, result_response := r2,
       processing_time_ms := t2 }], rfl, ?_, ?_, ?_, ?_, ?_, ?_, ?_⟩ <;>
    simp [dictInsert, DB.commit, ha, hpa2]

/-- Witness for C9 at `analyses=["description","description"]` on `a.jpg`. -/
theorem c9_duplicate_kind_witness :
    ∃ (resp : AnalysisResponse) (rows : List AnalysisRow),
      (analyze_image testCfg testFS testOracle
          { filename := "a.jpg", analyses := ["description", "description"] }
          (some ⟨⟩) emptyDB 0).result = .ok resp ∧
      (analyze_image testCfg testFS testOracle
          { filename := "a.jpg", analyses := ["description", "description"] }
          (some ⟨⟩) emptyDB 0).calls.length = 2 ∧
      (analyze_image testCfg testFS testOracle
          { filename := "a.jpg", analyses := ["description", "description"] }
          (some ⟨⟩) emptyDB 0).db.analyses = emptyDB.analyses ++ rows ∧
      rows.map (fun r => r.analysis_type) = ["description", "description"] ∧
      rows.map (fun r => r.result_response) = ["resp0", "resp1"] ∧
      rows.map (fun r => r.processing_time_ms) = [5, 6] ∧
      resp.results = [("description", .text "resp1")] ∧
      resp.processing_time_ms = 5 + 6 :=
  c9_duplicate_kind testCfg testFS ⟨⟩ emptyDB 0 testOracle
    { filename := "a.jpg", analyses := ["description", "description"] }
    "description" "resp0" "resp1" 5 6 rfl rfl rfl rfl rfl rfl

/-- C5 (amended): within one analyze request all successful analysis rows
are committed as one unit in a single end-of-request commit — which contains
no `Image` row — after every requested kind has been processed, never
per-kind; but the `Image` row created for a first-time filename is *not*
part of that commit: it is committed on its own, earlier, before any
analysis runs. So a request for a known filename performs exactly the one
end-of-request commit, while a first-time request performs exactly two. -/
theorem c5_single_end_commit (cfg : Config) (fs : FS)
    (oracle : Nat → RawOutcome) (request : AnalyzeRequest)
    (bt : BackgroundTasks) (db : DB) (k : Nat)
    (h2 : fs.fileExists (cfg.input_dir ++ "/" ++ request.filename) = true)
    (hpi : db.pendingImages = []) (hpa : db.pendingAnalyses = []) :
    ∃ rows : List AnalysisRow,
      (analyze_image cfg fs oracle request (some bt) db k).db.analyses
        = db.analyses ++ rows ∧
      ((∃ img, db.findImage request.filename = some img ∧
          (analyze_image cfg fs oracle request (some bt) db k).db.commits
            = db.commits ++ [⟨[], rows⟩]) ∨
       (db.findImage request.filename = none ∧
          (analyze_image cfg fs oracle request (some bt) db k).db.commits
            = db.commits ++
              [⟨[newImageRow fs request.filename
                  (cfg.input_dir ++ "/" ++ request.filename) db.nextImageId],
                []⟩,
               ⟨[], rows⟩])) := by
  rw [analyze_image_ok_eq cfg fs oracle request bt db k h2]
  dsimp only
  rcases hfind : db.findImage request.filename with _ | img
  · rw [findOrCreateImage_notFound fs _ _ db hfind]
    dsimp only
    obtain ⟨_, hpi', han, hcom, _, rows, hrows, _, _⟩ :=
      foldl_analysisStep_db cfg oracle request
        (pyOrStr request.model cfg.ollama_model)
        (newImageRow fs request.filename
          (cfg.input_dir ++ "/" ++ request.filename) db.nextImageId).id
        request.analyses
        { results := [], total := 0,
          db := { images := db.images ++ (db.pendingImages ++
                    [newImageRow fs request.filename
                      (cfg.input_dir ++ "/" ++ request.filename) db.nextImageId]),
                  analyses := db.analyses ++ db.pendingAnalyses,
                  pendingImages := [],
                  pendingAnalyses := [],
                  nextImageId := db.nextImageId + 1,
                  nextAnalysisId := db.nextAnalysisId,
                  commits := db.commits ++
                    [⟨db.pendingImages ++
                        [newImageRow fs request.filename
                          (cfg.input_dir ++ "/" ++ request.filename) db.nextImageId],
                      db.pendingAnalyses⟩] },
          k := k, calls := [] }
    refine ⟨rows, ?_, .inr ⟨rfl, ?_⟩⟩
    · simp only [DB.commit]
      rw [han, hrows]
      dsimp only
      simp [hpa]
    · simp only [DB.commit]
      rw [hcom, hrows, hpi']
      dsimp only
      simp [hpi, hpa]
  · rw [findOrCreateImage_found fs _ _ db img hfind]
    dsimp only
    obtain ⟨_, hpi', han, hcom, _, rows, hrows, _, _⟩ :=
      foldl_analysisStep_db cfg oracle request
        (pyOrStr request.model cfg.ollama_model) img.id request.analyses
        { results := [], total := 0, db := db, k := k, calls := [] }
    refine ⟨rows, ?_, .inl ⟨img, rfl, ?_⟩⟩
    · simp only [DB.commit]
      rw [han, hrows]
      dsimp only
      simp [hpa]
    · simp only [DB.commit]
      rw [hcom, hrows, hpi']
      dsimp only
      simp [hpi, hpa]

/-- Witness for C5 (amended) on a first-time filename: two commits, the
analysis rows all in the final one. -/
theorem c5_single_end_commit_witness :
    ∃ rows : List AnalysisRow,
      (analyze_image testCfg testFS testOracle
          { filename := "a.jpg", analyses := ["description"] }
          (some ⟨⟩) emptyDB 0).db.analyses = emptyDB.analyses ++ rows ∧
      ((∃ img, emptyDB.findImage "a.jpg" = some img ∧
          (analyze_image testCfg testFS testOracle
              { filename := "a.jpg", analyses := ["description"] }
              (some ⟨⟩) emptyDB 0).db.commits
            = emptyDB.commits ++ [⟨[], rows⟩]) ∨
       (emptyDB.findImage "a.jpg" = none ∧
          (analyze_image testCfg testFS testOracle
              { filename := "a.jpg", analyses := ["description"] }
              (some ⟨⟩) emptyDB 0).db.commits
            = emptyDB.commits ++
              [⟨[newImageRow testFS "a.jpg" ("/app/input" ++ "/" ++ "a.jpg")
                  emptyDB.nextImageId], []⟩,
               ⟨[], rows⟩])) :=
  c5_single_end_commit testCfg testFS testOracle
    { filename := "a.jpg", analyses := ["description"] } ⟨⟩ emptyDB 0
    rfl rfl rfl

/-- C6: calling analyze twice with the same analyses list (every kind valid,
every invocation succeeding) is append-only: each call appends one fresh row
per kind — the two calls' rows have disjoint consecutive id ranges, so
nothing is updated or deduplicated — all rows reference the same image id
that both responses carry, and the second call reuses the existing `Image`
row (the images table does not grow again). -/
theorem c6_append_only_two_calls (cfg : Config) (fs : FS)
    (oracle : Nat → RawOutcome) (request : AnalyzeRequest)
    (bt bt' : BackgroundTasks) (db : DB) (k : Nat)
    (h2 : fs.fileExists (cfg.input_dir ++ "/" ++ request.filename) = true)
    (hval : ∀ t ∈ request.analyses, validKind request t = true)
    (hok : ∀ n, (oracle n).isOk = true)
    (hpi : db.pendingImages = [])
    (hpa : db.pendingAnalyses = []) :
    ∃ (resp1 resp2 : AnalysisResponse) (rows1 rows2 : List AnalysisRow),
      (analyze_image cfg fs oracle request (some bt) db k).result
        = .ok resp1 ∧
      (analyze_image cfg fs oracle request (some bt')
          (analyze_image cfg fs oracle request (some bt) db k).db
          (analyze_image cfg fs oracle request (some bt) db k).k).result
        = .ok resp2 ∧
      resp2.image_id = resp1.image_id ∧
      (analyze_image cfg fs oracle request (some bt')
          (analyze_image cfg fs oracle request (some bt) db k).db
          (analyze_image cfg fs oracle request (some bt) db k).k).db.images
        = (analyze_image cfg fs oracle request (some bt) db k).db.images ∧
      (analyze_image cfg fs oracle request (some bt) db k).db.analyses
        = db.analyses ++ rows1 ∧
      (analyze_image cfg fs oracle request (some bt')
          (analyze_image cfg fs oracle request (some bt) db k).db
          (analyze_image cfg fs oracle request (some bt) db k).k).db.analyses
        = (db.analyses ++ rows1) ++ rows2 ∧
      rows1.map (fun r => r.analysis_type) = request.analyses ∧
      rows2.map (fun r => r.analysis_type) = request.analyses ∧
      (∀ r ∈ rows1 ++ rows2, r.image_id = resp1.image_id) ∧
      rows1.map (fun r => r.id)
        = List.range' db.nextAnalysisId request.analyses.length ∧
      rows2.map (fun r => r.id)
        = List.range' (db.nextAnalysisId + request.analyses.length)
            request.analyses.length := by
  rcases hfind : db.findImage request.filename with _ | img
  · obtain ⟨resp1, rows1, hres1, hid1, him1, hpi1, hpa1, han1, hnid1, hty1,
      hids1, himid1⟩ :=
      analyze_image_create_all_ok cfg fs oracle request bt db k
        h2 hval hok hpi hpa hfind
    have hfindpre : db.images.find?
        (fun i => i.filename == request.filename) = none := by
      have h := hfind
      unfold DB.findImage at h
      exact h
    have hfind2 : (analyze_image cfg fs oracle request (some bt) db k).db.findImage
        request.filename
        = some (newImageRow fs request.filename
            (cfg.input_dir ++ "/" ++ request.filename) db.nextImageId) := by
      unfold DB.findImage
      rw [him1, List.find?_append, hfindpre]
      simp [newImageRow_filename]
    obtain ⟨resp2, rows2, hres2, hid2, him2, hpi2, hpa2, han2, hnid2, hty2,
      hids2, himid2⟩ :=
      analyze_image_found_all_ok cfg fs oracle request bt'
        (analyze_image cfg fs oracle request (some bt) db k).db
        (analyze_image cfg fs oracle request (some bt) db k).k
        (newImageRow fs request.filename
          (cfg.input_dir ++ "/" ++ request.filename) db.nextImageId)
        h2 hval hok hpa1 hfind2
    refine ⟨resp1, resp2, rows1, rows2, hres1, hres2, ?_, ?_, han1, ?_,
      hty1, hty2, ?_, hids1, ?_⟩
    · rw [hid2, hid1]
    · rw [him2, hpi1]
      simp
    · rw [han2, han1]
    · intro r hr
      rcases List.mem_append.mp hr with h | h
      · rw [himid1 r h, hid1]
      · rw [himid2 r h, hid1]
    · rw [hids2, hnid1]
  · obtain ⟨resp1, rows1, hres1, hid1, him1, hpi1, hpa1, han1, hnid1, hty1,
      hids1, himid1⟩ :=
      analyze_image_found_all_ok cfg fs oracle request bt db k img
        h2 hval hok hpa hfind
    have hfind2 : (analyze_image cfg fs oracle request (some bt) db k).db.findImage
        request.filename = some img := by
      unfold DB.findImage
      rw [him1, hpi]
      simp only [List.append_nil]
      have h := hfind
      unfold DB.findImage at h
      exact h
    obtain ⟨resp2, rows2, hres2, hid2, him2, hpi2, hpa2, han2, hnid2, hty2,
      hids2, himid2⟩ :=
      analyze_image_found_all_ok cfg fs oracle request bt'
        (analyze_image cfg fs oracle request (some bt) db k).db
        (analyze_image cfg fs oracle request (some bt) db k).k
        img h2 hval hok hpa1 hfind2
    refine ⟨resp1, resp2, rows1, rows2, hres1, hres2, ?_, ?_, han1, ?_,
      hty1, hty2, ?_, hids1, ?_⟩
    · rw [hid2, hid1]
    · rw [him2, hpi1]
      simp
    · rw [han2, han1]
    · intro r hr
      rcases List.mem_append.mp hr with h | h
      · rw [himid1 r h, hid1]
      · rw [himid2 r h, hid1]
    · rw [hids2, hnid1]

/-- Witness for C6: two analyze calls on `a.jpg` with `["description"]`. -/
theorem c6_append_only_two_calls_witness :
    ∃ (resp1 resp2 : AnalysisResponse) (rows1 rows2 : List AnalysisRow),
      (analyze_image testCfg testFS testOracle
          { filename := "a.jpg", analyses := ["description"] }
          (some ⟨⟩) emptyDB 0).result = .ok resp1 ∧
      (analyze_image testCfg testFS testOracle
          { filename := "a.jpg", analyses := ["description"] }
          (some ⟨⟩)
          (analyze_image testCfg testFS testOracle
            { filename := "a.jpg", analyses := ["description"] }
            (some ⟨⟩) emptyDB 0).db
          (analyze_image testCfg testFS testOracle
            { filename := "a.jpg", analyses := ["description"] }
            (some ⟨⟩) emptyDB 0).k).result = .ok resp2 ∧
      resp2.image_id = resp1.image_id ∧
      (analyze_image testCfg testFS testOracle
          { filename := "a.jpg", analyses := ["description"] }
          (some ⟨⟩)
          (analyze_image testCfg testFS testOracle
            { filename := "a.jpg", analyses := ["description"] }
            (some ⟨⟩) emptyDB 0).db
          (analyze_image testCfg testFS testOracle
            { filename := "a.jpg", analyses := ["description"] }
            (some ⟨⟩) emptyDB 0).k).db.images
        = (analyze_image testCfg testFS testOracle
            { filename := "a.jpg", analyses := ["description"] }
            (some ⟨⟩) emptyDB 0).db.images ∧
      (analyze_image testCfg testFS testOracle
          { filename := "a.jpg", analyses := ["description"] }
          (some ⟨⟩) emptyDB 0).db.analyses = emptyDB.analyses ++ rows1 ∧
      (analyze_image testCfg testFS testOracle
          { filename := "a.jpg", analyses := ["description"] }
          (some ⟨⟩)
          (analyze_image testCfg testFS testOracle
            { filename := "a.jpg", analyses := ["description"] }
            (some ⟨⟩) emptyDB 0).db
          (analyze_image testCfg testFS testOracle
            { filename := "a.jpg", analyses := ["description"] }
            (some ⟨⟩) emptyDB 0).k).db.analyses
        = (emptyDB.analyses ++ rows1) ++ rows2 ∧
      rows1.map (fun r => r.analysis_type) = ["description"] ∧
      rows2.map (fun r => r.analysis_type) = ["description"] ∧
      (∀ r ∈ rows1 ++ rows2, r.image_id = resp1.image_id) ∧
      rows1.map (fun r => r.id) = List.range' emptyDB.nextAnalysisId 1 ∧
      rows2.map (fun r => r.id) = List.range' (emptyDB.nextAnalysisId + 1) 1 :=
  c6_append_only_two_calls testCfg testFS testOracle
    { filename := "a.jpg", analyses := ["description"] } ⟨⟩ ⟨⟩ emptyDB 0
    rfl
    (by intro t ht; simp only [List.mem_singleton] at ht; subst ht; rfl)
    (fun _ => rfl) rfl rfl

end ImageProcessor
